import Mathlib

/-!
Shallow embedding of the restaurant-map application (src/맛집지도/app.py):
a single SQLite table of restaurant records behind a Streamlit UI, with
schema migration at startup, CRUD operations, a favorite flag, keyword
search over a pandas DataFrame, geocoding via geopy, and CSV backup and
restore via pandas.

Modelling conventions:
* SQL timestamps (CURRENT_TIMESTAMP) are modelled as a `Nat` clock value
  passed explicitly to each operation that the database would timestamp.
* REAL columns and Python floats are modelled as `ℚ`; floating-point
  formatting and rounding are abstracted away (values round-trip exactly).
* Python `str.strip()` is `pyStrip` (drops leading and trailing whitespace).
* pandas cells are `CellVal`: a string, a number, or `navail` (NaN, the
  missing-value marker produced by `read_csv` for an empty cell and by
  `read_sql` for a numeric NULL).  Python renders the float NaN via str() as the
  string "nan" and `None` as the string "None"; both renderings are kept.
* The documented SQLite restriction that ALTER TABLE ADD COLUMN only accepts
  a constant default (CURRENT_TIMESTAMP is rejected with the error
  "Cannot add a column with non-constant default") is modelled in
  `sqlite_add_column`; inserting NaN into a REAL column stores NULL, so a
  NaN lat or lon violates the NOT NULL constraint and aborts the INSERT.
-/

namespace MatjipMap

/-- Whitespace characters removed by Python str.strip(). -/
def py_whitespace (c : Char) : Bool :=
  c = ' ' || c = '\t' || c = '\n' || c = '\r' || c = '\x0b' || c = '\x0c'

/-- Python str.strip(): drop leading and trailing whitespace. -/
def pyStrip (s : String) : String :=
  String.mk (((s.toList.dropWhile py_whitespace).reverse.dropWhile py_whitespace).reverse)

/-- One row of the restaurants table (the record data model of the app). -/
structure Restaurant where
  id : Nat
  name : String
  category : Option String
  memo : Option String
  lat : ℚ
  lon : ℚ
  address : Option String
  phone : Option String
  url : Option String
  price_range : Option String
  rating : Option ℚ
  tags : Option String
  favorite : Bool
  created_at : Nat
  updated_at : Option Nat
  deriving Repr, DecidableEq

/-- The restaurants table: its rows plus the AUTOINCREMENT counter. -/
structure DB where
  rows : List Restaurant
  nextId : Nat
  deriving Repr, DecidableEq

/-- A freshly created database. -/
def emptyDB : DB := { rows := [], nextId := 1 }

/-- Embedding of insert_restaurant (app.py lines 132-157): INSERT of the
eleven field parameters; favorite is hard-coded to 0 in the VALUES list,
created_at takes the column default CURRENT_TIMESTAMP (the `now` argument),
updated_at is not inserted and stays NULL, id is assigned by AUTOINCREMENT. -/
def insert_restaurant (db : DB) (now : Nat) (name category memo : String)
    (lat lon : ℚ) (address phone url price_range : String)
    (rating : Option ℚ) (tags : String) : DB :=
  let newRow : Restaurant :=
    { id := db.nextId, name := name, category := some category,
      memo := some memo, lat := lat, lon := lon, address := some address,
      phone := some phone, url := some url, price_range := some price_range,
      rating := rating, tags := some tags, favorite := false,
      created_at := now, updated_at := none }
  { rows := db.rows ++ [newRow], nextId := db.nextId + 1 }

/-- Embedding of update_restaurant (app.py lines 160-188): UPDATE setting the
eleven field columns and updated_at = CURRENT_TIMESTAMP on rows WHERE id
matches; id, favorite and created_at are not in the SET list.  A non-matching
id updates zero rows and raises no error. -/
def update_restaurant (db : DB) (now : Nat) (restaurant_id : Nat)
    (name category memo : String) (lat lon : ℚ)
    (address phone url price_range : String)
    (rating : Option ℚ) (tags : String) : DB :=
  let setRow : Restaurant → Restaurant := fun r =>
    { r with
      name := name, category := some category, memo := some memo,
      lat := lat, lon := lon, address := some address, phone := some phone,
      url := some url, price_range := some price_range, rating := rating,
      tags := some tags, updated_at := some now }
  { db with rows := db.rows.map (fun r => if r.id = restaurant_id then setRow r else r) }

/-- Embedding of delete_restaurant (app.py lines 191-199): DELETE WHERE id
matches; a non-matching id deletes zero rows and raises no error. -/
def delete_restaurant (db : DB) (restaurant_id : Nat) : DB :=
  { db with rows := db.rows.filter (fun r => r.id ≠ restaurant_id) }

/-- Embedding of toggle_favorite (app.py lines 202-210): UPDATE setting only
the favorite column on rows WHERE id matches.  The statement does not touch
updated_at, and a non-matching id updates zero rows and raises no error. -/
def toggle_favorite (db : DB) (restaurant_id : Nat) (new_value : Bool) : DB :=
  { db with rows := db.rows.map (fun r =>
      if r.id = restaurant_id then { r with favorite := new_value } else r) }

/-- Default value clause of a column, as written in the DDL of init_db. -/
inductive ColDefault where
  | noDefault
  | intConst (n : Int)
  | currentTimestamp
  deriving Repr, DecidableEq

/-- A column together with its default, as it appears in an ALTER statement. -/
structure ColumnSpec where
  colName : String
  dflt : ColDefault
  deriving Repr, DecidableEq

/-- Semantics of SQLite ALTER TABLE ADD COLUMN on the schema: SQLite only
accepts a constant default here, and rejects CURRENT_TIMESTAMP with the
OperationalError "Cannot add a column with non-constant default". -/
def sqlite_add_column (cols : List String) (c : ColumnSpec) :
    Except String (List String) :=
  match c.dflt with
  | .currentTimestamp => .error ("Cannot add a column with non-constant default")
  | _ => .ok (cols ++ [c.colName])

/-- Column set of the CREATE TABLE statement in init_db (app.py lines 57-77). -/
def create_table_columns : List String :=
  ["id", "name", "category", "memo", "lat", "lon", "address", "phone", "url",
   "price_range", "rating", "tags", "favorite", "created_at", "updated_at"]

/-- Embedding of init_db (app.py lines 51-101) at the schema level: CREATE
TABLE IF NOT EXISTS (a no-op when a table already exists), then PRAGMA
table_info introspection, then one ALTER TABLE ADD COLUMN per missing column
among favorite (DEFAULT 0), created_at (DEFAULT CURRENT_TIMESTAMP) and
updated_at (no default), executed in that order.  The input is the column
set of a pre-existing table, or none when no table exists yet. -/
def init_db (existing : Option (List String)) : Except String (List String) :=
  let cols := match existing with
    | none => create_table_columns
    | some cs => cs
  let alters : List ColumnSpec :=
    (if cols.contains ("favorite") then [] else [⟨"favorite", .intConst 0⟩])
    ++ (if cols.contains ("created_at") then [] else [⟨"created_at", .currentTimestamp⟩])
    ++ (if cols.contains ("updated_at") then [] else [⟨"updated_at", .noDefault⟩])
  alters.foldlM sqlite_add_column cols

/-- Outcome of one geopy geocode call made by geocode_address. -/
inductive GeoOutcome where
  | found (lat lon : ℚ)
  | notFound
  | unavailable
  | timedOut
  | otherError
  deriving Repr, DecidableEq

/-- An exception escaping geocode_address to its caller. -/
inductive GeoExn where
  | uncaught
  deriving Repr, DecidableEq

/-- Embedding of geocode_address (app.py lines 223-238).  The geopy provider
is a parameter mapping the queried address to an outcome.  The result pairs
what the function returns (or the exception it lets escape: only
GeocoderUnavailable and GeocoderTimedOut are caught) with the list of
addresses actually sent to the provider. -/
def geocode_address (provider : String → GeoOutcome) (address : String) :
    Except GeoExn (Option ℚ × Option ℚ) × List String :=
  if pyStrip address = "" then (.ok (none, none), [])
  else
    match provider address with
    | .found la lo => (.ok (some la, some lo), [address])
    | .notFound => (.ok (none, none), [address])
    | .unavailable => (.ok (none, none), [address])
    | .timedOut => (.ok (none, none), [address])
    | .otherError => (.error .uncaught, [address])

/-- Sentinel option of the price-range select box (app.py line 274/482). -/
def price_no_selection : String := "선택 안 함"

/-- Embedding of the save-button handler of page_add_or_edit (app.py lines
478-519): an empty-after-strip name shows an error and writes nothing
(second component false); otherwise the price sentinel becomes the empty
string, a slider rating of exactly 0 becomes NULL, and the record is either
updated (edit mode) or inserted.  The lat and lon inputs always hold a
number, so coordinates can never be missing on this path. -/
def page_save (db : DB) (now : Nat) (edit_id : Option Nat)
    (name category memo : String) (cur_lat cur_lon : ℚ)
    (address phone url price_range_sel : String) (rating : ℚ)
    (tags : String) : DB × Bool :=
  if pyStrip name = "" then (db, false)
  else
    let price_value := if price_range_sel = price_no_selection then "" else price_range_sel
    let rating_value : Option ℚ := if rating = 0 then none else some rating
    match edit_id with
    | some rid =>
        (update_restaurant db now rid (pyStrip name) (pyStrip category)
          (pyStrip memo) cur_lat cur_lon (pyStrip address) (pyStrip phone)
          (pyStrip url) price_value rating_value (pyStrip tags), true)
    | none =>
        (insert_restaurant db now (pyStrip name) (pyStrip category)
          (pyStrip memo) cur_lat cur_lon (pyStrip address) (pyStrip phone)
          (pyStrip url) price_value rating_value (pyStrip tags), true)

/-- Lower-cased character list of a string (ASCII case folding, matching
re.IGNORECASE on the keywords the app handles). -/
def lowerList (s : String) : List Char := s.toList.map Char.toLower

/-- Occurrence of a character list as a contiguous sublist. -/
def strOccurs (needle : List Char) : List Char → Bool
  | [] => needle.isEmpty
  | c :: t => needle.isPrefixOf (c :: t) || strOccurs needle t

/-- Case-insensitive containment of pat in hay: the meaning of pandas
Series.str.contains(pat, case=False) when pat holds no regex
metacharacter (the pattern is then a literal). -/
def py_contains_ci (hay pat : String) : Bool :=
  strOccurs (lowerList pat) (lowerList hay)

/-- Python str() rendering of a nullable text cell, as produced by
DataFrame astype(str) on a column read from SQL: a SQL NULL arrives as
Python None and renders as the string "None". -/
def py_astype_str : Option String → String
  | none => "None"
  | some s => s

/-- Characters that are metacharacters of Python regular expressions. -/
def regex_metachars : List Char :=
  ['.', '^', '$', '*', '+', '?', Char.ofNat 123, Char.ofNat 125,
   '[', ']', '(', ')', '|', '\\']

/-- Keywords free of regex metacharacters, for which str.contains matches
the pattern literally. -/
def regex_free (s : String) : Bool :=
  s.toList.all (fun c => !(regex_metachars.contains c))

/-- Embedding of the keyword-search step of page_list (app.py lines
668-676): a keyword that is empty after strip applies no filter; otherwise
a row is kept when the stripped keyword occurs case-insensitively in the
astype(str) rendering of name, tags, memo or address. -/
def page_list_keyword_filter (keyword : String) (rows : List Restaurant) :
    List Restaurant :=
  if pyStrip keyword = "" then rows
  else
    let kw := pyStrip keyword
    rows.filter (fun r =>
      py_contains_ci r.name kw || py_contains_ci (py_astype_str r.tags) kw ||
      py_contains_ci (py_astype_str r.memo) kw ||
      py_contains_ci (py_astype_str r.address) kw)

/-- Keyword predicate in the words of the claim: the keyword (as given) is a
case-insensitive substring of name, tags, memo or address, an absent field
being treated as the empty string. -/
def spec_keyword_match (keyword : String) (r : Restaurant) : Bool :=
  py_contains_ci r.name keyword ||
  py_contains_ci (r.tags.getD "") keyword ||
  py_contains_ci (r.memo.getD "") keyword ||
  py_contains_ci (r.address.getD "") keyword

/-- Keyword predicate in the words of the amended claim: the stripped
keyword is a case-insensitive substring of name, tags, memo or address, an
absent field being rendered as the string "None". -/
def spec_keyword_match_amended (keyword : String) (r : Restaurant) : Bool :=
  py_contains_ci r.name (pyStrip keyword) ||
  py_contains_ci (py_astype_str r.tags) (pyStrip keyword) ||
  py_contains_ci (py_astype_str r.memo) (pyStrip keyword) ||
  py_contains_ci (py_astype_str r.address) (pyStrip keyword)

/-- Map-centre default coordinates (app.py lines 29-30), used by the import
as the fallback of row.get on a missing lat or lon column. -/
def DEFAULT_LAT : ℚ := mkRat 37566535 1000000

/-- Default longitude (app.py line 30). -/
def DEFAULT_LON : ℚ := mkRat 126977969 1000000

/-- One pandas cell: a string, a number, or NaN (produced by read_csv for an
empty cell).  Numeric re-typing of numeric-looking text by read_csv type
inference is abstracted: a nonempty text cell stays text with its exact
characters, and a numeric cell carries its exact value. -/
inductive CellVal where
  | strV (s : String)
  | numV (q : ℚ)
  | navail
  deriving Repr, DecidableEq

/-- Python str() of a float value, used only when safe_str meets a numeric
cell.  The exact decimal rendering is abstracted; no theorem depends on it. -/
def pyStrOfNum (q : ℚ) : String :=
  if q.den = 1 then toString q.num ++ ".0"
  else toString q.num ++ "/" ++ toString q.den

/-- Embedding of safe_str (app.py lines 261-267) applied to a pandas cell:
None becomes "", but the NaN of a missing cell is not None and renders via
str() as "nan". -/
def safe_str_cell : CellVal → String
  | .strV s => s
  | .numV q => pyStrOfNum q
  | .navail => "nan"

/-- Python float() on a string, restricted to the plain decimal forms
(optional sign, digits, optional fraction) after stripping whitespace;
anything else raises ValueError (none here).  Exponents and the inf/nan
spellings are not modelled. -/
def pyFloatOfString (s : String) : Option ℚ :=
  let cs := (pyStrip s).toList
  let signed : Int × List Char :=
    match cs with
    | '-' :: t => (-1, t)
    | '+' :: t => (1, t)
    | _ => (1, cs)
  let intPart := signed.2.takeWhile Char.isDigit
  let rest := signed.2.dropWhile Char.isDigit
  let digitsVal : List Char → Nat := fun l => l.foldl (fun a c => a * 10 + (c.toNat - 48)) 0
  match rest with
  | [] =>
      if intPart.isEmpty then none
      else some (mkRat (signed.1 * (digitsVal intPart : Int)) 1)
  | '.' :: frac =>
      if frac.all Char.isDigit && !(intPart.isEmpty && frac.isEmpty) then
        let scale : Nat := 10 ^ frac.length
        some (mkRat (signed.1 * ((digitsVal intPart * scale + digitsVal frac : Nat) : Int)) scale)
      else none
  | _ => none

/-- One DataFrame row of an uploaded CSV, as an association list from column
name to cell. -/
abbrev CsvRow := List (String × CellVal)

/-- Lookup of a column in a row (pandas Series.get without default). -/
def rowLookup (row : CsvRow) (c : String) : Option CellVal :=
  (row.find? (fun p => p.1 == c)).map Prod.snd

/-- Evaluation of safe_str(row.get(c, "")).strip() as in the import loop
(app.py lines 806-816): a missing column yields the "" default. -/
def pyGetStr (row : CsvRow) (c : String) : String :=
  match rowLookup row c with
  | some v => pyStrip (safe_str_cell v)
  | none => ""

/-- Evaluation of float(row.get(c, dflt)) for lat and lon: a missing column
uses the numeric default; a NaN cell gives a NaN float, which SQLite stores
as NULL (none here), so it later violates the NOT NULL constraint; a text
cell that does not parse as a float raises ValueError (`.error`). -/
def pyGetFloat (row : CsvRow) (c : String) (dflt : ℚ) : Except Unit (Option ℚ) :=
  match rowLookup row c with
  | none => .ok (some dflt)
  | some (.numV q) => .ok (some q)
  | some .navail => .ok none
  | some (.strV s) =>
      match pyFloatOfString s with
      | some q => .ok (some q)
      | none => .error ()

/-- Evaluation of float(row["rating"]) if pd.notna(row.get("rating", None))
else None: a missing column or NaN cell yields no rating; a numeric cell is
kept as given (no zero normalisation); unparseable text raises. -/
def pyGetRating (row : CsvRow) : Except Unit (Option ℚ) :=
  match rowLookup row ("rating") with
  | none => .ok none
  | some .navail => .ok none
  | some (.numV q) => .ok (some q)
  | some (.strV s) =>
      match pyFloatOfString s with
      | some q => .ok (some q)
      | none => .error ()

/-- Processing of one CSV row by the import loop: evaluate the arguments of
insert_restaurant; any ValueError from float(), or a NaN lat or lon (bound
as NULL, violating NOT NULL), aborts the row with nothing of it persisted. -/
def csvImportRow (db : DB) (now : Nat) (row : CsvRow) : Except Unit DB :=
  match pyGetFloat row ("lat") DEFAULT_LAT, pyGetFloat row ("lon") DEFAULT_LON,
      pyGetRating row with
  | .ok (some la), .ok (some lo), .ok rat =>
      .ok (insert_restaurant db now (pyGetStr row ("name"))
        (pyGetStr row ("category")) (pyGetStr row ("memo")) la lo
        (pyGetStr row ("address")) (pyGetStr row ("phone"))
        (pyGetStr row ("url")) (pyGetStr row ("price_range")) rat
        (pyGetStr row ("tags")))
  | _, _, _ => .error ()

/-- Decision of whether a row passes the import loop without an exception
(its lat and lon evaluate to non-NaN floats and its rating evaluates). -/
def rowImportOk (row : CsvRow) : Bool :=
  (pyGetFloat row ("lat") DEFAULT_LAT).toOption.join.isSome &&
  (pyGetFloat row ("lon") DEFAULT_LON).toOption.join.isSome &&
  (match pyGetRating row with | .ok _ => true | .error _ => false)

/-- Total version of csvImportRow keeping the database unchanged on failure. -/
def csvImportRowD (now : Nat) (db : DB) (row : CsvRow) : DB :=
  match csvImportRow db now row with
  | .ok db2 => db2
  | .error _ => db

/-- An uploaded CSV after read_csv: its header and its rows. -/
structure Csv where
  cols : List String
  rows : List CsvRow
  deriving DecidableEq

/-- Outcome reported by the CSV merge handler: the header error, a success
with the number of inserted rows, or an exception caught mid-loop after
some rows were already inserted and committed. -/
inductive ImportOutcome where
  | headerError
  | merged (count : Nat)
  | rowException (insertedBefore : Nat)
  deriving Repr, DecidableEq

/-- The import loop over the rows: each successful row is inserted and
committed at once; the first failing row aborts the loop, keeping the rows
inserted before it. -/
def csvImportRows (now : Nat) : DB → List CsvRow → Nat → DB × ImportOutcome
  | db, [], n => (db, .merged n)
  | db, r :: rs, n =>
      match csvImportRow db now r with
      | .ok db2 => csvImportRows now db2 rs (n + 1)
      | .error _ => (db, .rowException n)

/-- Mandatory columns of an uploaded CSV (app.py line 798). -/
def required_cols : List String := ["name", "lat", "lon"]

/-- Embedding of the CSV merge handler of page_data (app.py lines 796-820):
reject the whole upload when a mandatory column is absent from the header,
otherwise insert the rows in order. -/
def page_data_import (db : DB) (now : Nat) (csv : Csv) : DB × ImportOutcome :=
  if required_cols.all (fun c => csv.cols.contains c) then
    csvImportRows now db csv.rows 0
  else (db, .headerError)

/-- Serialisation of one stored text field by to_csv: an empty string is an
empty cell, which read_csv later reads back as NaN. -/
def exportStrCell (s : String) : CellVal :=
  if s = "" then .navail else .strV s

/-- Serialisation of a nullable text field: NULL is also an empty cell. -/
def exportOptStrCell : Option String → CellVal
  | none => .navail
  | some s => exportStrCell s

/-- Serialisation of a nullable numeric field. -/
def exportOptNumCell : Option ℚ → CellVal
  | none => .navail
  | some q => .numV q

/-- Header written by df_all.to_csv: the full column set of the table. -/
def export_columns : List String := create_table_columns

/-- One record as a CSV row, column per column, as to_csv writes df_all
(app.py lines 772-779). -/
def exportRow (r : Restaurant) : CsvRow :=
  [("id", .numV (r.id : ℚ)), ("name", exportStrCell r.name),
   ("category", exportOptStrCell r.category), ("memo", exportOptStrCell r.memo),
   ("lat", .numV r.lat), ("lon", .numV r.lon),
   ("address", exportOptStrCell r.address), ("phone", exportOptStrCell r.phone),
   ("url", exportOptStrCell r.url), ("price_range", exportOptStrCell r.price_range),
   ("rating", exportOptNumCell r.rating), ("tags", exportOptStrCell r.tags),
   ("favorite", .numV (if r.favorite then 1 else 0)),
   ("created_at", .numV (r.created_at : ℚ)),
   ("updated_at", exportOptNumCell (r.updated_at.map (fun t => (t : ℚ))))]

/-- The CSV backup of a record list (the export side of page_data). -/
def page_data_export (rows : List Restaurant) : Csv :=
  { cols := export_columns, rows := rows.map exportRow }

/-- Export to CSV followed by import of that CSV into an empty store. -/
def csv_roundtrip (rows : List Restaurant) (now : Nat) : DB × ImportOutcome :=
  page_data_import emptyDB now (page_data_export rows)

/-- What one exported text field reads back as after the round trip: empty
text died to an empty cell and comes back as the string "nan"; other text
comes back stripped. -/
def reimportStr (s : String) : String :=
  if s = "" then "nan" else pyStrip s

/-- Round-trip rendering of a nullable text field: NULL also becomes "nan". -/
def reimportOptStr : Option String → String
  | none => "nan"
  | some s => reimportStr s

/-- The record produced by re-importing the export of r: a fresh id, the
text fields through reimportStr, exact lat, lon and rating, favorite reset
to false, created_at at import time, updated_at cleared. -/
def reimportRec (r : Restaurant) (newId : Nat) (now : Nat) : Restaurant :=
  { id := newId, name := reimportStr r.name,
    category := some (reimportOptStr r.category),
    memo := some (reimportOptStr r.memo), lat := r.lat, lon := r.lon,
    address := some (reimportOptStr r.address),
    phone := some (reimportOptStr r.phone), url := some (reimportOptStr r.url),
    price_range := some (reimportOptStr r.price_range), rating := r.rating,
    tags := some (reimportOptStr r.tags), favorite := false,
    created_at := now, updated_at := none }

/-- Records produced by re-importing a list, with ids counting up from nid. -/
def reimportList (now : Nat) : Nat → List Restaurant → List Restaurant
  | _, [] => []
  | nid, r :: rs => reimportRec r nid now :: reimportList now (nid + 1) rs

/-- Column set of a legacy restaurants table from before the favorite,
created_at and updated_at columns were added to the schema. -/
def legacy_columns : List String :=
  ["id", "name", "category", "memo", "lat", "lon", "address", "phone", "url",
   "price_range", "rating", "tags"]

/-- A stored record whose optional fields are all NULL. -/
def pastaRec : Restaurant :=
  { id := 1, name := "Pasta", category := none, memo := none, lat := 1, lon := 2,
    address := none, phone := none, url := none, price_range := none,
    rating := none, tags := none, favorite := false, created_at := 1,
    updated_at := none }

/-- A store holding just pastaRec, with the id counter at 2. -/
def oneRecDB : DB := { rows := [pastaRec], nextId := 2 }

/-- A stored record with favorite set, empty optional text fields, a rating
and an update timestamp, used to exercise the CSV round trip. -/
def cexRec : Restaurant :=
  { id := 7, name := "A", category := some "", memo := some "m", lat := 1, lon := 2,
    address := some "", phone := some "", url := some "", price_range := some "",
    rating := some 4, tags := some "", favorite := true, created_at := 5,
    updated_at := some 6 }

/-- An uploaded CSV with the full mandatory header whose second row has a
non-numeric lat value (as read_csv delivers a text lat column, the numeric
first row arrives as text too). -/
def badCsv : Csv :=
  { cols := ["name", "lat", "lon"],
    rows := [[("name", .strV "A"), ("lat", .strV "1"), ("lon", .strV "2")],
             [("name", .strV "B"), ("lat", .strV "abc"), ("lon", .strV "3")]] }

/-- An uploaded CSV whose single row has a whitespace-only name. -/
def blankNameCsv : Csv :=
  { cols := ["name", "lat", "lon"],
    rows := [[("name", .strV "  "), ("lat", .numV 1), ("lon", .numV 2)]] }

/-- An uploaded CSV whose single row carries a rating of exactly 0. -/
def ratingZeroCsv : Csv :=
  { cols := ["name", "lat", "lon", "rating"],
    rows := [[("name", .strV "A"), ("lat", .numV 1), ("lon", .numV 2),
              ("rating", .numV 0)]] }

/-- A well-formed one-row upload with all mandatory columns. -/
def goodCsv : Csv :=
  { cols := ["name", "lat", "lon"],
    rows := [[("name", .strV "A"), ("lat", .numV 1), ("lon", .numV 2)]] }

/-- An upload whose header lacks the mandatory lon column. -/
def noLonCsv : Csv := { cols := ["name", "lat"], rows := [] }

/-- Mapping a conditional per-row edit over rows none of which match the id
leaves the list unchanged. -/
theorem map_cond_id (rows : List Restaurant) (i : Nat)
    (f : Restaurant → Restaurant) (h : ∀ r ∈ rows, r.id ≠ i) :
    rows.map (fun r => if r.id = i then f r else r) = rows := by
  induction rows with
  | nil => rfl
  | cons a t ih =>
      simp only [List.map_cons]
      rw [if_neg (h a (by simp)), ih (fun r hr => h r (by simp [hr]))]

/-- A projection untouched by a per-row edit commutes with mapping the
conditional edit over the rows. -/
theorem map_cond_proj {β : Type} (rows : List Restaurant) (i : Nat)
    (f : Restaurant → Restaurant) (g : Restaurant → β)
    (h : ∀ r, g (f r) = g r) :
    (rows.map (fun r => if r.id = i then f r else r)).map g = rows.map g := by
  induction rows with
  | nil => rfl
  | cons a t ih =>
      by_cases h0 : a.id = i <;> simp [h0, h, ih]

/-- C1.  The claim is right and the code is wrong: on a pre-existing
restaurants table whose columns predate created_at, init_db executes
ALTER TABLE restaurants ADD COLUMN created_at TIMESTAMP DEFAULT
CURRENT_TIMESTAMP, which SQLite rejects (an added column may only carry a
constant default), so startup initialisation raises an OperationalError
instead of adding the missing columns and succeeding. -/
theorem C1_init_db_crashes_on_legacy_table :
    init_db (some legacy_columns)
      = .error ("Cannot add a column with non-constant default") := by
  rfl

/-- C4.  For every address, when the provider reports itself unavailable or
times out, geocode_address returns the absent pair (None, None) and lets no
exception escape to its caller. -/
theorem C4_geocode_provider_failure_absent (provider : String → GeoOutcome)
    (address : String)
    (h : provider address = .unavailable ∨ provider address = .timedOut) :
    (geocode_address provider address).1 = .ok (none, none) := by
  unfold geocode_address
  by_cases hb : pyStrip address = ""
  · simp [hb]
  · rcases h with h | h <;> simp [hb, h]

/-- Witness for C4 at a concrete unavailable provider and address. -/
theorem C4_witness :
    (geocode_address (fun _ => GeoOutcome.unavailable) ("서울시청")).1
      = .ok (none, none) :=
  C4_geocode_provider_failure_absent (fun _ => GeoOutcome.unavailable)
    ("서울시청") (Or.inl rfl)

/-- C10.  For every address that strips to the empty string, geocode_address
returns (None, None) immediately and the list of provider calls is empty. -/
theorem C10_blank_address_no_provider_call (provider : String → GeoOutcome)
    (address : String) (h : pyStrip address = "") :
    geocode_address provider address = (.ok (none, none), []) := by
  unfold geocode_address
  simp [h]

/-- Witness for C10 at a concrete whitespace-only address. -/
theorem C10_witness :
    geocode_address (fun _ => GeoOutcome.found 1 2) ("   ")
      = (.ok (none, none), []) :=
  C10_blank_address_no_provider_call (fun _ => GeoOutcome.found 1 2) ("   ")
    (by decide)

/-- C7 counterexample.  Toggling the favorite of an id absent from the store
does not fail with any error: the UPDATE matches zero rows and the operation
returns normally with the store unchanged, contradicting the claimed
NotFoundError. -/
theorem C7_counterexample_absent_id_silent_noop :
    toggle_favorite oneRecDB 2 true = oneRecDB := by decide

/-- C7 amended.  Set-favorite never fails: on an id absent from the store it
silently leaves the store unchanged, and on every existing id it sets that
favorite flag of that record to the given value, leaving non-matching records
untouched. -/
theorem C7_toggle_favorite_amended (db : DB) (i : Nat) (v : Bool) :
    (i ∉ db.rows.map Restaurant.id → toggle_favorite db i v = db)
    ∧ (∀ r ∈ (toggle_favorite db i v).rows, r.id = i → r.favorite = v)
    ∧ (∀ r ∈ (toggle_favorite db i v).rows, r.id ≠ i → r ∈ db.rows) := by
  refine ⟨?_, ?_, ?_⟩
  · intro hni
    have h0 : ∀ r ∈ db.rows, r.id ≠ i := by
      intro r hr he
      exact hni (he ▸ List.mem_map_of_mem Restaurant.id hr)
    unfold toggle_favorite
    rw [map_cond_id db.rows i _ h0]
  · intro r hr hid
    unfold toggle_favorite at hr
    simp only [List.mem_map] at hr
    obtain ⟨r0, _, he⟩ := hr
    by_cases h0 : r0.id = i
    · rw [if_pos h0] at he
      rw [← he]
    · rw [if_neg h0] at he
      rw [← he] at hid
      exact absurd hid h0
  · intro r hr hid
    unfold toggle_favorite at hr
    simp only [List.mem_map] at hr
    obtain ⟨r0, hr0, he⟩ := hr
    by_cases h0 : r0.id = i
    · rw [if_pos h0] at he
      rw [← he] at hid
      exact absurd h0 hid
    · rw [if_neg h0] at he
      rw [← he]
      exact hr0

/-- Witness for C7 at concrete absent and present ids. -/
theorem C7_witness :
    toggle_favorite oneRecDB 2 true = oneRecDB ∧
    (∀ r ∈ (toggle_favorite oneRecDB 1 true).rows, r.id = 1 → r.favorite = true) :=
  ⟨(C7_toggle_favorite_amended oneRecDB 2 true).1 (by decide),
   (C7_toggle_favorite_amended oneRecDB 1 true).2.1⟩

/-- C9 counterexample.  Toggling favorite on an existing record mutates the
record (the flag flips) yet leaves updated_at NULL: the UPDATE of
toggle_favorite has no updated_at assignment (it takes no clock at all),
contradicting the claim that every mutation sets updated_at. -/
theorem C9_counterexample_toggle_leaves_updated_at :
    (toggle_favorite oneRecDB 1 true).rows.map Restaurant.favorite = [true]
    ∧ (toggle_favorite oneRecDB 1 true).rows.map Restaurant.updated_at = [none] := by
  decide

/-- C9 amended.  Update sets updated_at to the current time on the matched
record and leaves id, created_at and favorite unchanged on every record;
favorite-toggle leaves id, created_at and also updated_at unchanged. -/
theorem C9_mutation_frame_amended (db : DB) (now rid : Nat)
    (name category memo : String) (lat lon : ℚ)
    (address phone url price_range : String) (rating : Option ℚ)
    (tags : String) (v : Bool) :
    ((update_restaurant db now rid name category memo lat lon address phone url
        price_range rating tags).rows.map Restaurant.id = db.rows.map Restaurant.id
      ∧ (update_restaurant db now rid name category memo lat lon address phone url
          price_range rating tags).rows.map Restaurant.created_at
        = db.rows.map Restaurant.created_at
      ∧ (update_restaurant db now rid name category memo lat lon address phone url
          price_range rating tags).rows.map Restaurant.favorite
        = db.rows.map Restaurant.favorite
      ∧ (∀ r ∈ (update_restaurant db now rid name category memo lat lon address
          phone url price_range rating tags).rows,
          r.id = rid → r.updated_at = some now))
    ∧ ((toggle_favorite db rid v).rows.map Restaurant.id = db.rows.map Restaurant.id
      ∧ (toggle_favorite db rid v).rows.map Restaurant.created_at
        = db.rows.map Restaurant.created_at
      ∧ (toggle_favorite db rid v).rows.map Restaurant.updated_at
        = db.rows.map Restaurant.updated_at) := by
  constructor
  · refine ⟨?_, ?_, ?_, ?_⟩
    · simp only [update_restaurant]
      exact map_cond_proj db.rows rid _ Restaurant.id (fun r => rfl)
    · simp only [update_restaurant]
      exact map_cond_proj db.rows rid _ Restaurant.created_at (fun r => rfl)
    · simp only [update_restaurant]
      exact map_cond_proj db.rows rid _ Restaurant.favorite (fun r => rfl)
    · intro r hr hid
      simp only [update_restaurant, List.mem_map] at hr
      obtain ⟨r0, _, he⟩ := hr
      by_cases h0 : r0.id = rid
      · rw [if_pos h0] at he
        rw [← he]
      · rw [if_neg h0] at he
        rw [← he] at hid
        exact absurd hid h0
  · refine ⟨?_, ?_, ?_⟩
    · simp only [toggle_favorite]
      exact map_cond_proj db.rows rid _ Restaurant.id (fun r => rfl)
    · simp only [toggle_favorite]
      exact map_cond_proj db.rows rid _ Restaurant.created_at (fun r => rfl)
    · simp only [toggle_favorite]
      exact map_cond_proj db.rows rid _ Restaurant.updated_at (fun r => rfl)

/-- Witness for C9 at a concrete update of the one-record store. -/
theorem C9_witness :
    (update_restaurant oneRecDB 42 1 ("B") ("c") ("m") 1 2 ("a") ("p") ("u")
        ("pr") none ("t")).rows.map Restaurant.created_at
      = oneRecDB.rows.map Restaurant.created_at
    ∧ (∀ r ∈ (update_restaurant oneRecDB 42 1 ("B") ("c") ("m") 1 2 ("a") ("p")
        ("u") ("pr") none ("t")).rows, r.id = 1 → r.updated_at = some 42) :=
  ⟨(C9_mutation_frame_amended oneRecDB 42 1 ("B") ("c") ("m") 1 2 ("a") ("p")
      ("u") ("pr") none ("t") true).1.2.1,
   (C9_mutation_frame_amended oneRecDB 42 1 ("B") ("c") ("m") 1 2 ("a") ("p")
      ("u") ("pr") none ("t") true).1.2.2.2⟩

/-- C8 counterexample.  A CSV upload row whose name is whitespace-only is
inserted as a record with an empty name and the import reports success:
an insert request with a missing required field neither fails with a
ValidationError nor leaves the store unwritten. -/
theorem C8_counterexample_blank_name_inserted :
    (page_data_import emptyDB 0 blankNameCsv).1.rows.map Restaurant.name = [""]
    ∧ (page_data_import emptyDB 0 blankNameCsv).2 = .merged 1 := by
  decide

/-- C8 amended.  Only the save-form handler validates: a save whose name is
empty after stripping shows an inline error and writes nothing; the
store-level insert itself performs no validation and always appends one
record, whatever its name (the lat and lon inputs of the form always hold a
number, so coordinates cannot be missing on that path). -/
theorem C8_insert_validation_amended (db : DB) (now : Nat)
    (edit_id : Option Nat) (name category memo : String) (la lo : ℚ)
    (address phone url pr : String) (rating : ℚ) (tags : String)
    (rating0 : Option ℚ) :
    (pyStrip name = "" →
      page_save db now edit_id name category memo la lo address phone url pr
        rating tags = (db, false))
    ∧ (insert_restaurant db now name category memo la lo address phone url pr
        rating0 tags).rows.length = db.rows.length + 1 := by
  constructor
  · intro h
    unfold page_save
    rw [if_pos h]
  · simp [insert_restaurant]

/-- Witness for C8 at a concrete whitespace-only name. -/
theorem C8_witness :
    page_save emptyDB 0 none ("  ") ("") ("") 1 2 ("") ("") ("") ("") 0 ("")
      = (emptyDB, false) :=
  (C8_insert_validation_amended emptyDB 0 none ("  ") ("") ("") 1 2 ("") ("")
    ("") ("") 0 ("") none).1 (by decide)

/-- C3 counterexample.  A CSV import row carrying rating 0 is stored with
rating 0, not with rating absent: the import path has no zero
normalisation. -/
theorem C3_counterexample_csv_rating_zero_stored :
    (page_data_import emptyDB 0 ratingZeroCsv).1.rows.map Restaurant.rating
      = [some 0]
    ∧ (page_data_import emptyDB 0 ratingZeroCsv).2 = .merged 1 := by
  decide

/-- C3 amended.  An insertion via the save form whose rating input is
exactly 0 stores the rating as absent; the CSV import path performs no such
normalisation and stores a numeric rating cell exactly as given, zero
included. -/
theorem C3_rating_zero_amended (db : DB) (now : Nat)
    (name category memo : String) (la lo : ℚ)
    (address phone url pr tags : String) (row : CsvRow) (q : ℚ)
    (hname : pyStrip name ≠ "")
    (hrow : rowLookup row ("rating") = some (.numV q)) :
    (page_save db now none name category memo la lo address phone url pr 0
        tags).1.rows.map Restaurant.rating = db.rows.map Restaurant.rating ++ [none]
    ∧ pyGetRating row = .ok (some q) := by
  constructor
  · unfold page_save
    rw [if_neg hname]
    simp [insert_restaurant]
  · unfold pyGetRating
    rw [hrow]

/-- Witness for C3 at a concrete form save and a concrete rating cell. -/
theorem C3_witness :
    (page_save emptyDB 7 none ("A") ("") ("") 1 2 ("") ("") ("") ("") 0
        ("")).1.rows.map Restaurant.rating
      = emptyDB.rows.map Restaurant.rating ++ [none]
    ∧ pyGetRating [(("rating"), CellVal.numV 0)] = .ok (some 0) :=
  C3_rating_zero_amended emptyDB 7 ("A") ("") ("") 1 2 ("") ("") ("") ("")
    ("") [(("rating"), CellVal.numV 0)] 0 (by decide) (by decide)

/-- Occurrence of the empty pattern in any list holds. -/
theorem strOccurs_nil (h : List Char) : strOccurs [] h = true := by
  cases h <;> simp [strOccurs, List.isPrefixOf]

/-- Containment of the empty pattern in any string holds. -/
theorem py_contains_ci_empty_pat (hay : String) : py_contains_ci hay ("") = true := by
  unfold py_contains_ci
  have he : lowerList ("") = [] := rfl
  rw [he]
  exact strOccurs_nil _

/-- C5 counterexample.  With one record whose tags, memo and address are all
NULL, the keyword "none" (metacharacter-free, and no substring of any field
under the claimed null-as-empty-string reading) is nevertheless matched by
the code, because astype(str) renders a NULL field as the string "None". -/
theorem C5_counterexample_null_field_matches_keyword :
    page_list_keyword_filter ("none") [pastaRec] = [pastaRec]
    ∧ [pastaRec].filter (spec_keyword_match ("none")) = [] := by
  decide

/-- C5 amended.  For keywords free of regex metacharacters (str.contains
interprets the keyword as a regular expression), the keyword search keeps
exactly the records for which the stripped keyword is a case-insensitive
substring of name, tags, memo or address, an absent field being rendered as
the string "None" rather than the empty string. -/
theorem C5_keyword_search_amended (keyword : String) (rows : List Restaurant)
    (h : regex_free (pyStrip keyword) = true) :
    page_list_keyword_filter keyword rows
      = rows.filter (spec_keyword_match_amended keyword) := by
  unfold page_list_keyword_filter
  by_cases hk : pyStrip keyword = ""
  · rw [if_pos hk]
    have hall : ∀ r ∈ rows, spec_keyword_match_amended keyword r = true := by
      intro r _
      unfold spec_keyword_match_amended
      rw [hk]
      simp [py_contains_ci_empty_pat]
    exact (List.filter_eq_self.mpr hall).symm
  · rw [if_neg hk]
    rfl

/-- Witness for C5 at a concrete metacharacter-free keyword. -/
theorem C5_witness :
    page_list_keyword_filter ("pasta") [pastaRec]
      = [pastaRec].filter (spec_keyword_match_amended ("pasta")) :=
  C5_keyword_search_amended ("pasta") [pastaRec] (by decide)

/-- Lat lookup in an exported row. -/
theorem pyGetFloat_export_lat (r : Restaurant) :
    pyGetFloat (exportRow r) ("lat") DEFAULT_LAT = .ok (some r.lat) := rfl

/-- Lon lookup in an exported row. -/
theorem pyGetFloat_export_lon (r : Restaurant) :
    pyGetFloat (exportRow r) ("lon") DEFAULT_LON = .ok (some r.lon) := rfl

/-- Rating lookup in an exported row returns the rating unchanged. -/
theorem pyGetRating_export (r : Restaurant) :
    pyGetRating (exportRow r) = .ok r.rating := by
  have h : rowLookup (exportRow r) ("rating") = some (exportOptNumCell r.rating) := rfl
  unfold pyGetRating
  rw [h]
  cases r.rating with
  | none => rfl
  | some q => rfl

/-- Stripping the safe_str of an exported text cell gives reimportStr. -/
theorem safe_strip_exportStr (s : String) :
    pyStrip (safe_str_cell (exportStrCell s)) = reimportStr s := by
  unfold exportStrCell reimportStr
  by_cases h : s = ""
  · rw [if_pos h, if_pos h]
    rfl
  · rw [if_neg h, if_neg h]
    rfl

/-- Stripping the safe_str of an exported nullable text cell gives
reimportOptStr. -/
theorem safe_strip_exportOptStr (o : Option String) :
    pyStrip (safe_str_cell (exportOptStrCell o)) = reimportOptStr o := by
  cases o with
  | none => rfl
  | some s => exact safe_strip_exportStr s

/-- Name field read back from an exported row. -/
theorem pyGetStr_export_name (r : Restaurant) :
    pyGetStr (exportRow r) ("name") = reimportStr r.name := by
  have h : rowLookup (exportRow r) ("name") = some (exportStrCell r.name) := rfl
  unfold pyGetStr
  rw [h]
  exact safe_strip_exportStr r.name

/-- Category field read back from an exported row. -/
theorem pyGetStr_export_category (r : Restaurant) :
    pyGetStr (exportRow r) ("category") = reimportOptStr r.category := by
  have h : rowLookup (exportRow r) ("category") = some (exportOptStrCell r.category) := rfl
  unfold pyGetStr
  rw [h]
  exact safe_strip_exportOptStr r.category

/-- Memo field read back from an exported row. -/
theorem pyGetStr_export_memo (r : Restaurant) :
    pyGetStr (exportRow r) ("memo") = reimportOptStr r.memo := by
  have h : rowLookup (exportRow r) ("memo") = some (exportOptStrCell r.memo) := rfl
  unfold pyGetStr
  rw [h]
  exact safe_strip_exportOptStr r.memo

/-- Address field read back from an exported row. -/
theorem pyGetStr_export_address (r : Restaurant) :
    pyGetStr (exportRow r) ("address") = reimportOptStr r.address := by
  have h : rowLookup (exportRow r) ("address") = some (exportOptStrCell r.address) := rfl
  unfold pyGetStr
  rw [h]
  exact safe_strip_exportOptStr r.address

/-- Phone field read back from an exported row. -/
theorem pyGetStr_export_phone (r : Restaurant) :
    pyGetStr (exportRow r) ("phone") = reimportOptStr r.phone := by
  have h : rowLookup (exportRow r) ("phone") = some (exportOptStrCell r.phone) := rfl
  unfold pyGetStr
  rw [h]
  exact safe_strip_exportOptStr r.phone

/-- Url field read back from an exported row. -/
theorem pyGetStr_export_url (r : Restaurant) :
    pyGetStr (exportRow r) ("url") = reimportOptStr r.url := by
  have h : rowLookup (exportRow r) ("url") = some (exportOptStrCell r.url) := rfl
  unfold pyGetStr
  rw [h]
  exact safe_strip_exportOptStr r.url

/-- Price-range field read back from an exported row. -/
theorem pyGetStr_export_price (r : Restaurant) :
    pyGetStr (exportRow r) ("price_range") = reimportOptStr r.price_range := by
  have h : rowLookup (exportRow r) ("price_range")
      = some (exportOptStrCell r.price_range) := rfl
  unfold pyGetStr
  rw [h]
  exact safe_strip_exportOptStr r.price_range

/-- Tags field read back from an exported row. -/
theorem pyGetStr_export_tags (r : Restaurant) :
    pyGetStr (exportRow r) ("tags") = reimportOptStr r.tags := by
  have h : rowLookup (exportRow r) ("tags") = some (exportOptStrCell r.tags) := rfl
  unfold pyGetStr
  rw [h]
  exact safe_strip_exportOptStr r.tags

/-- Importing an exported row inserts exactly the reimported field values. -/
theorem csvImportRow_export (db : DB) (now : Nat) (r : Restaurant) :
    csvImportRow db now (exportRow r)
      = .ok (insert_restaurant db now (reimportStr r.name)
          (reimportOptStr r.category) (reimportOptStr r.memo) r.lat r.lon
          (reimportOptStr r.address) (reimportOptStr r.phone)
          (reimportOptStr r.url) (reimportOptStr r.price_range) r.rating
          (reimportOptStr r.tags)) := by
  have step1 : csvImportRow db now (exportRow r)
      = .ok (insert_restaurant db now (pyGetStr (exportRow r) ("name"))
          (pyGetStr (exportRow r) ("category")) (pyGetStr (exportRow r) ("memo"))
          r.lat r.lon (pyGetStr (exportRow r) ("address"))
          (pyGetStr (exportRow r) ("phone")) (pyGetStr (exportRow r) ("url"))
          (pyGetStr (exportRow r) ("price_range")) r.rating
          (pyGetStr (exportRow r) ("tags"))) := by
    unfold csvImportRow
    rw [pyGetFloat_export_lat, pyGetFloat_export_lon, pyGetRating_export]
  rw [step1, pyGetStr_export_name, pyGetStr_export_category,
    pyGetStr_export_memo, pyGetStr_export_address, pyGetStr_export_phone,
    pyGetStr_export_url, pyGetStr_export_price, pyGetStr_export_tags]

/-- The import loop over an exported record list appends exactly the
reimported records, with ids counting up from the current counter. -/
theorem csvImportRows_export (now : Nat) :
    ∀ (rs : List Restaurant) (db : DB) (n : Nat),
      csvImportRows now db (rs.map exportRow) n
        = ({ rows := db.rows ++ reimportList now db.nextId rs,
             nextId := db.nextId + rs.length }, .merged (n + rs.length)) := by
  intro rs
  induction rs with
  | nil =>
      intro db n
      simp [csvImportRows, reimportList]
  | cons r rs ih =>
      intro db n
      rw [List.map_cons]
      show csvImportRows now db (exportRow r :: rs.map exportRow) n = _
      unfold csvImportRows
      rw [csvImportRow_export]
      show csvImportRows now (insert_restaurant db now (reimportStr r.name)
        (reimportOptStr r.category) (reimportOptStr r.memo) r.lat r.lon
        (reimportOptStr r.address) (reimportOptStr r.phone)
        (reimportOptStr r.url) (reimportOptStr r.price_range) r.rating
        (reimportOptStr r.tags)) (rs.map exportRow) (n + 1) = _
      rw [ih]
      simp only [insert_restaurant, reimportList, reimportRec, List.length_cons,
        List.append_assoc, List.singleton_append, Prod.mk.injEq, DB.mk.injEq]
      refine ⟨⟨trivial, by omega⟩, ?_⟩
      congr 1
      omega

/-- C2 counterexample.  Round-tripping a one-record store through export
and re-import does not reproduce the record set up to id reassignment: the stored
favorite flag is reset (insert_restaurant hard-codes favorite to 0), the
empty category comes back as the literal string "nan" (its empty CSV cell
reads back as NaN, which safe_str renders via str()), and created_at is
re-assigned to the import time instead of being preserved. -/
theorem C2_counterexample_roundtrip_not_identity :
    ((csv_roundtrip [cexRec] 99).1.rows.map Restaurant.favorite = [false]
      ∧ cexRec.favorite = true)
    ∧ ((csv_roundtrip [cexRec] 99).1.rows.map Restaurant.category = [some "nan"]
      ∧ cexRec.category = some "")
    ∧ ((csv_roundtrip [cexRec] 99).1.rows.map Restaurant.created_at = [99]
      ∧ cexRec.created_at = 5) := by
  decide

/-- C2 amended.  Importing the export of a record list into an empty store
yields, in order, one record per original record with fresh sequential ids,
favorite reset to false, created_at set to the import time, updated_at
cleared, lat, lon and rating reproduced exactly, and each text field
reproduced up to stripping except that an empty or NULL text field comes
back as the literal string "nan". -/
theorem C2_roundtrip_amended (rows : List Restaurant) (now : Nat) :
    csv_roundtrip rows now
      = ({ rows := reimportList now 1 rows, nextId := rows.length + 1 },
         .merged rows.length) := by
  have hc0 : (page_data_export rows).cols = export_columns := rfl
  have hc : required_cols.all (fun c => (page_data_export rows).cols.contains c) = true := by
    rw [hc0]
    decide
  unfold csv_roundtrip page_data_import
  rw [hc]
  show csvImportRows now emptyDB ((page_data_export rows).rows) 0 = _
  show csvImportRows now emptyDB (rows.map exportRow) 0 = _
  rw [csvImportRows_export]
  simp [emptyDB, Nat.add_comm]

/-- A float evaluation whose ok-payload is present comes from an .ok (some). -/
theorem pyGetFloat_ok_of (row : CsvRow) (c : String) (dflt : ℚ)
    (h : (pyGetFloat row c dflt).toOption.join.isSome = true) :
    ∃ q, pyGetFloat row c dflt = .ok (some q) := by
  cases he : pyGetFloat row c dflt with
  | error e =>
      rw [he] at h
      simp [Except.toOption] at h
  | ok o =>
      cases o with
      | none =>
          rw [he] at h
          simp [Except.toOption, Option.join] at h
      | some q => exact ⟨q, rfl⟩

/-- A rating evaluation that does not raise comes from an .ok. -/
theorem pyGetRating_ok_of (row : CsvRow)
    (h : (match pyGetRating row with | .ok _ => true | .error _ => false) = true) :
    ∃ o, pyGetRating row = .ok o := by
  cases he : pyGetRating row with
  | error e =>
      rw [he] at h
      simp at h
  | ok o => exact ⟨o, rfl⟩

/-- A row that passes rowImportOk is imported successfully and appends
exactly one record. -/
theorem csvImportRow_ok_spec (row : CsvRow) (h : rowImportOk row = true)
    (db : DB) (now : Nat) :
    csvImportRow db now row = .ok (csvImportRowD now db row)
    ∧ (csvImportRowD now db row).rows.length = db.rows.length + 1 := by
  unfold rowImportOk at h
  simp only [Bool.and_eq_true] at h
  obtain ⟨⟨h1, h2⟩, h3⟩ := h
  obtain ⟨la, hla⟩ := pyGetFloat_ok_of _ _ _ h1
  obtain ⟨lo, hlo⟩ := pyGetFloat_ok_of _ _ _ h2
  obtain ⟨ra, hra⟩ := pyGetRating_ok_of _ h3
  unfold csvImportRowD csvImportRow
  rw [hla, hlo, hra]
  exact ⟨rfl, by simp [insert_restaurant]⟩

/-- When every row passes rowImportOk, the import loop folds the rows into
the store in order and reports their count, growing the store by exactly
one record per row. -/
theorem csvImportRows_all_ok (now : Nat) :
    ∀ (rs : List CsvRow) (db : DB) (n : Nat), rs.all rowImportOk = true →
      csvImportRows now db rs n = (rs.foldl (csvImportRowD now) db, .merged (n + rs.length))
      ∧ (rs.foldl (csvImportRowD now) db).rows.length = db.rows.length + rs.length := by
  intro rs
  induction rs with
  | nil =>
      intro db n h
      simp [csvImportRows]
  | cons r rs ih =>
      intro db n h
      rw [List.all_cons, Bool.and_eq_true] at h
      obtain ⟨h1, h2⟩ := h
      obtain ⟨he, hlen⟩ := csvImportRow_ok_spec r h1 db now
      constructor
      · show csvImportRows now db (r :: rs) n = _
        unfold csvImportRows
        rw [he]
        show csvImportRows now (csvImportRowD now db r) rs (n + 1) = _
        rw [(ih (csvImportRowD now db r) (n + 1) h2).1, List.foldl_cons]
        congr 2
        simp only [List.length_cons]
        omega
      · rw [List.foldl_cons, (ih (csvImportRowD now db r) (n + 1) h2).2, hlen,
          List.length_cons]
        omega

/-- C6 counterexample.  An upload with the full mandatory header whose
second row has an unparseable lat aborts mid-loop: one row is already
inserted and committed, the rest are not, and an error is reported — so an
error case other than a missing mandatory column exists and it does not
reject the operation as a whole. -/
theorem C6_counterexample_partial_insert :
    (page_data_import emptyDB 0 badCsv).2 = .rowException 1
    ∧ (page_data_import emptyDB 0 badCsv).1.rows.length = 1 := by
  decide

/-- C6 amended.  An upload whose header lacks any of name, lat, lon is
rejected with zero rows inserted; when the header has all three and every
lat, lon and rating values of every row evaluate as floats with lat and lon not
NaN, every row is inserted in order as a new record (no duplicate
detection), one record per row; a row failing that evaluation instead
aborts the loop at that row, keeping the rows inserted before it. -/
theorem C6_import_amended (db : DB) (now : Nat) (csv : Csv) :
    (required_cols.all (fun c => csv.cols.contains c) = false →
      page_data_import db now csv = (db, .headerError))
    ∧ (required_cols.all (fun c => csv.cols.contains c) = true →
      csv.rows.all rowImportOk = true →
        page_data_import db now csv
          = (csv.rows.foldl (csvImportRowD now) db, .merged csv.rows.length)
        ∧ (page_data_import db now csv).1.rows.length
          = db.rows.length + csv.rows.length) := by
  constructor
  · intro h
    unfold page_data_import
    rw [h]
    rfl
  · intro h hrows
    unfold page_data_import
    rw [h]
    have hall := csvImportRows_all_ok now csv.rows db 0 hrows
    constructor
    · show csvImportRows now db csv.rows 0 = _
      rw [hall.1]
      congr 2
      omega
    · show (csvImportRows now db csv.rows 0).1.rows.length = _
      rw [hall.1]
      exact hall.2

/-- Witness for C6 at a concrete rejected header and a concrete well-formed
upload. -/
theorem C6_witness :
    page_data_import emptyDB 0 noLonCsv = (emptyDB, .headerError)
    ∧ page_data_import emptyDB 5 goodCsv
      = (goodCsv.rows.foldl (csvImportRowD 5) emptyDB, .merged goodCsv.rows.length) :=
  ⟨(C6_import_amended emptyDB 0 noLonCsv).1 (by decide),
   ((C6_import_amended emptyDB 5 goodCsv).2 (by decide) (by decide)).1⟩

end MatjipMap
